import Mathlib

/-!
Verification of the gqlfetch introspection-to-SDL converter (src/main.go).

The Go source is shallowly embedded below.  Machine-level conventions:
* Go strings are Lean `String`; `[]T` slices are `List T`; `*T` pointer
  fields are `Option T` (nil = `none`).
* The recursive `introspectedType` struct (`Kind`, `Name *string`,
  `OfType *introspectedType`) is embedded as a two-constructor inductive:
  a node whose `OfType` pointer is nil is `leaf kind name`, a node whose
  `OfType` points at `inner` is `wrap kind name inner`.  This is exactly
  the `Option`-nesting of the Go struct, inlined so that all recursion is
  structural.
* gqlparser's `ast.Type` (`NamedType string`, `Elem *Type`,
  `NonNull bool`) is embedded the same way: `Elem = nil` is `base`,
  `Elem = &e` is `withElem`.
* A Go function that can dereference a nil pointer is modelled with an
  explicit `nilPanic` / `panicked` outcome; a Go `error` return is an
  explicit error value.
-/

/-- Introspection type reference (src `introspectedType`): `leaf k n` is a
node with `OfType == nil`, `wrap k n inner` a node with `OfType == &inner`.
`name` is the `Name *string` field. -/
inductive IntrospectedType : Type where
  | leaf (kind : String) (name : Option String)
  | wrap (kind : String) (name : Option String) (inner : IntrospectedType)

/-- gqlparser `ast.Type`: `base n nn` has `Elem == nil`, `withElem n nn e`
has `Elem == &e`. -/
inductive AstType : Type where
  | base (namedType : String) (nonNull : Bool)
  | withElem (namedType : String) (nonNull : Bool) (elem : AstType)

/-- The `NonNull` field of an `ast.Type`. -/
def AstType.nonNull : AstType → Bool
  | .base _ nn => nn
  | .withElem _ nn _ => nn

/-- Go `res := *astType; res.NonNull = true` — copy with `NonNull` set. -/
def AstType.setNonNull : AstType → AstType
  | .base n _ => .base n true
  | .withElem n _ e => .withElem n true e

/-- Error value built by `introspectionTypeToAstType`: either the
`fmt.Errorf("type kind unknown: %s", typ.Kind)` leaf, or a
`fmt.Errorf("convert introspection type to AST type: %w\n%v", err, typ.OfType)`
wrap that carries the inner reference it was formatted with. -/
inductive ResolveErr : Type where
  | unknownKind (k : String)
  | wrapped (inner : ResolveErr) (ref : IntrospectedType)

/-- The `Error()` text of a `ResolveErr`.  The `%v` dump of the attached
reference that Go appends after the newline is omitted: it prints raw
pointer addresses, and every property below only concerns the text up to
and including the wrapped message. -/
def ResolveErr.message : ResolveErr → String
  | .unknownKind k => "type kind unknown: " ++ k
  | .wrapped e _ => "convert introspection type to AST type: " ++ e.message ++ "\n"

/-- Outcome of a Go call that returns `(T, error)` but may also crash on a
nil-pointer dereference. -/
inductive GoResult (α : Type) : Type where
  | ok : α → GoResult α
  | err : ResolveErr → GoResult α
  | nilPanic : GoResult α

/-- src `introspectionTypeToAstType` (lines 350-376) on a non-nil
argument.  A node with `OfType == nil` takes the leaf branch first and
dereferences `*typ.Name` — which panics when `Name` is nil.  Otherwise the
kind selects `NON_NULL` (copy the inner result, set `NonNull`), `LIST`
(fresh type whose `Elem` is the inner result), or the
"type kind unknown" error. -/
def introspectionTypeToAstType : IntrospectedType → GoResult AstType
  | .leaf _ none => .nilPanic
  | .leaf _ (some n) => .ok (.base n false)
  | .wrap k _ inner =>
    if k == "NON_NULL" then
      match introspectionTypeToAstType inner with
      | .ok a => .ok a.setNonNull
      | .err e => .err (.wrapped e inner)
      | .nilPanic => .nilPanic
    else if k == "LIST" then
      match introspectionTypeToAstType inner with
      | .ok a => .ok (.withElem "" false a)
      | .err e => .err (.wrapped e inner)
      | .nilPanic => .nilPanic
    else .err (.unknownKind k)

/-- Calling `introspectionTypeToAstType` through a possibly-nil
`*introspectedType` (as the printer does): a nil pointer panics at the
`typ.OfType` dereference. -/
def resolveTypeRef : Option IntrospectedType → GoResult AstType
  | none => .nilPanic
  | some t => introspectionTypeToAstType t

/-- gqlparser `ast.Type.String`: `nn` is `"!"` when `NonNull`; a type with
a non-empty `NamedType` renders as the name plus `nn`; otherwise it
renders `"[" + Elem.String() + "]" + nn`, panicking (`none`) when `Elem`
is nil.  Modelled from the spec: SDL renderings `Name`, `[Name]`, `Name!`,
`[Name!]!` (the method itself lives in the vendored gqlparser library, not
under src/). -/
def AstType.renderString : AstType → Option String
  | .base named nn =>
    if !(named == "") then some (named ++ (if nn then "!" else ""))
    else none
  | .withElem named nn e =>
    if !(named == "") then some (named ++ (if nn then "!" else ""))
    else (e.renderString).map (fun s => "[" ++ s ++ "]" ++ (if nn then "!" else ""))

/-- Character-list prefix test (Go `strings.HasPrefix`, on the rune
sequence). -/
def isPrefixChars : List Char → List Char → Bool
  | [], _ => true
  | _ :: _, [] => false
  | a :: as, b :: bs => a == b && isPrefixChars as bs

/-- Character-list substring-occurrence test (Go `strings.Contains`). -/
def isSubSeg (n : List Char) : List Char → Bool
  | [] => isPrefixChars n []
  | c :: rest => isPrefixChars n (c :: rest) || isSubSeg n rest

/-- String `hay` has `needle` as a contiguous substring. -/
def containsSubstring (hay needle : String) : Bool :=
  isSubSeg needle.data hay.data

/-- String `s` starts with `pre` (Go `strings.HasPrefix(s, pre)`). -/
def hasPrefixStr (s pre : String) : Bool :=
  isPrefixChars pre.data s.data

theorem isPrefixChars_refl (n : List Char) : isPrefixChars n n = true := by
  induction n with
  | nil => rfl
  | cons a as ih => simp [isPrefixChars, ih]

theorem isPrefixChars_nil_right (n : List Char) (h : isPrefixChars n [] = true) :
    n = [] := by
  cases n with
  | nil => rfl
  | cons a as => simp [isPrefixChars] at h

theorem isPrefixChars_extend (n m q : List Char) (h : isPrefixChars n m = true) :
    isPrefixChars n (m ++ q) = true := by
  induction n generalizing m with
  | nil => rfl
  | cons a as ih =>
    cases m with
    | nil => simp [isPrefixChars] at h
    | cons b bs =>
      simp only [isPrefixChars, Bool.and_eq_true] at h
      simp [isPrefixChars, h.1, ih bs h.2]

theorem isSubSeg_of_nil (l : List Char) : isSubSeg [] l = true := by
  induction l with
  | nil => rfl
  | cons c rest ih => simp [isSubSeg, isPrefixChars]

theorem isSubSeg_refl (n : List Char) : isSubSeg n n = true := by
  cases n with
  | nil => rfl
  | cons c rest => simp [isSubSeg, isPrefixChars_refl]

theorem isSubSeg_append_right (n m q : List Char) (h : isSubSeg n m = true) :
    isSubSeg n (m ++ q) = true := by
  induction m with
  | nil =>
    have hn := isPrefixChars_nil_right n h
    subst hn
    simpa using isSubSeg_of_nil q
  | cons c m' ih =>
    simp only [isSubSeg, Bool.or_eq_true] at h
    rcases h with h | h
    · have := isPrefixChars_extend n (c :: m') q h
      simp only [List.cons_append] at this ⊢
      simp [isSubSeg, this]
    · simp [isSubSeg, ih h]

theorem isSubSeg_append_left (n m p : List Char) (h : isSubSeg n m = true) :
    isSubSeg n (p ++ m) = true := by
  induction p with
  | nil => simpa using h
  | cons c p' ih => simp [isSubSeg, ih]

theorem containsSubstring_refl (s : String) : containsSubstring s s = true :=
  isSubSeg_refl s.data

theorem containsSubstring_surround (m needle p q : String)
    (h : containsSubstring m needle = true) :
    containsSubstring (p ++ m ++ q) needle = true := by
  unfold containsSubstring at h ⊢
  rw [String.data_append, String.data_append]
  exact isSubSeg_append_right _ _ _ (isSubSeg_append_left _ _ _ h)

/-- Non-leaf node whose kind is neither of the two wrapper kinds occurs
somewhere along the `OfType` chain. -/
def containsBadWrapper : IntrospectedType → Bool
  | .leaf _ _ => false
  | .wrap k _ inner => !(k == "NON_NULL" || k == "LIST") || containsBadWrapper inner

/-- Kind string of the outermost non-leaf node that is neither `NON_NULL`
nor `LIST` — the node whose kind the resolver reports. -/
def firstBadKind : IntrospectedType → String
  | .leaf _ _ => ""
  | .wrap k _ inner => if k == "NON_NULL" || k == "LIST" then firstBadKind inner else k

/-- Claim C7: a type reference containing a non-leaf node whose kind is
neither `NON_NULL` nor `LIST` fails to resolve, and the error message
contains "type kind unknown: <kind>" for the offending (outermost such)
kind string. -/
theorem unknown_wrapper_kind_fails (t : IntrospectedType)
    (h : containsBadWrapper t = true) :
    ∃ e, introspectionTypeToAstType t = .err e ∧
      containsSubstring e.message ("type kind unknown: " ++ firstBadKind t) = true := by
  induction t with
  | leaf k n => simp [containsBadWrapper] at h
  | wrap k n inner ih =>
    by_cases hnn : (k == "NON_NULL") = true
    · have hbad : containsBadWrapper inner = true := by
        simpa [containsBadWrapper, hnn] using h
      obtain ⟨e, he, hmsg⟩ := ih hbad
      refine ⟨.wrapped e inner, ?_, ?_⟩
      · simp [introspectionTypeToAstType, hnn, he]
      · have hfb : firstBadKind (.wrap k n inner) = firstBadKind inner := by
          simp [firstBadKind, hnn]
        rw [hfb]
        exact containsSubstring_surround _ _ _ _ hmsg
    · have hnn' : (k == "NON_NULL") = false := by simpa using hnn
      by_cases hl : (k == "LIST") = true
      · have hbad : containsBadWrapper inner = true := by
          simpa [containsBadWrapper, hl] using h
        obtain ⟨e, he, hmsg⟩ := ih hbad
        refine ⟨.wrapped e inner, ?_, ?_⟩
        · simp [introspectionTypeToAstType, hnn', hl, he]
        · have hfb : firstBadKind (.wrap k n inner) = firstBadKind inner := by
            simp [firstBadKind, hl]
          rw [hfb]
          exact containsSubstring_surround _ _ _ _ hmsg
      · have hl' : (k == "LIST") = false := by simpa using hl
        refine ⟨.unknownKind k, ?_, ?_⟩
        · simp [introspectionTypeToAstType, hnn', hl']
        · have hfb : firstBadKind (.wrap k n inner) = k := by
            simp [firstBadKind, hnn', hl']
          rw [hfb]
          exact containsSubstring_refl _

/-- Witness for C7 at the spec's own example: a reference whose non-leaf
node has kind "BOGUS" fails with an error identifying "BOGUS". -/
theorem unknown_wrapper_kind_fails_witness :
    containsBadWrapper (.wrap "BOGUS" none (.leaf "SCALAR" (some "Int"))) = true ∧
      (∃ e, introspectionTypeToAstType (.wrap "BOGUS" none (.leaf "SCALAR" (some "Int"))) = .err e ∧
        containsSubstring e.message
          ("type kind unknown: " ++
            firstBadKind (.wrap "BOGUS" none (.leaf "SCALAR" (some "Int")))) = true) :=
  ⟨rfl, unknown_wrapper_kind_fails (.wrap "BOGUS" none (.leaf "SCALAR" (some "Int"))) rfl⟩

/-- Node is a `NON_NULL` wrapper (non-leaf node with kind `NON_NULL`). -/
def isNonNullWrapper : IntrospectedType → Bool
  | .leaf _ _ => false
  | .wrap k _ _ => k == "NON_NULL"

/-- Well-formed finite wrapper chain in the sense of spec §3: wrapper
nodes have kind `NON_NULL` or `LIST`, `NON_NULL` never directly wraps
another `NON_NULL`, and the chain terminates in a named leaf (with a
non-empty name, so that the rendering is defined). -/
def wfChain : IntrospectedType → Bool
  | .leaf _ (some n) => !(n == "")
  | .leaf _ none => false
  | .wrap k _ inner =>
    ((k == "NON_NULL" && !(isNonNullWrapper inner)) || k == "LIST") && wfChain inner

/-- Modelled from the spec: the bracket/exclamation nesting a wrapper
chain implies — a leaf renders as its name, `NON_NULL` appends `!` to the
current expression, `LIST` wraps the current expression in `[` `]`. -/
def impliedRendering : IntrospectedType → Option String
  | .leaf _ (some n) => some n
  | .leaf _ none => none
  | .wrap k _ inner =>
    if k == "NON_NULL" then (impliedRendering inner).map (fun s => s ++ "!")
    else if k == "LIST" then (impliedRendering inner).map (fun s => "[" ++ s ++ "]")
    else none

theorem renderString_setNonNull (a : AstType) (s : String)
    (hnn : a.nonNull = false) (h : a.renderString = some s) :
    a.setNonNull.renderString = some (s ++ "!") := by
  cases a with
  | base n nn =>
    have hnn' : nn = false := hnn
    subst hnn'
    by_cases hn : (n == "") = true
    · simp [AstType.renderString, hn] at h
    · have hn' : (n == "") = false := by simpa using hn
      simp only [AstType.renderString, hn', Bool.not_false, if_true, if_neg, Bool.false_eq_true,
        Option.some.injEq] at h
      simp only [AstType.setNonNull, AstType.renderString, hn', Bool.not_false, if_true,
        Option.some.injEq]
      rw [← h]
      simp [String.append_assoc]
  | withElem n nn e =>
    have hnn' : nn = false := hnn
    subst hnn'
    by_cases hn : (n == "") = true
    · simp only [AstType.renderString, hn, Bool.not_true, Bool.false_eq_true, if_false] at h
      cases he : e.renderString with
      | none => rw [he] at h; simp at h
      | some se =>
        rw [he] at h
        simp only [Option.map_some', Option.some.injEq] at h
        simp only [AstType.setNonNull, AstType.renderString, hn, Bool.not_true,
          Bool.false_eq_true, if_false, he, Option.map_some', Option.some.injEq]
        rw [← h]
        simp [String.append_assoc]
    · have hn' : (n == "") = false := by simpa using hn
      simp only [AstType.renderString, hn', Bool.not_false, if_true, Option.some.injEq] at h
      simp only [AstType.setNonNull, AstType.renderString, hn', Bool.not_false, if_true,
        Option.some.injEq]
      rw [← h]
      simp [String.append_assoc]

theorem resolve_render_wf (t : IntrospectedType) (h : wfChain t = true) :
    ∃ a s, introspectionTypeToAstType t = .ok a ∧ a.renderString = some s ∧
      impliedRendering t = some s ∧
      (isNonNullWrapper t = false → a.nonNull = false) := by
  induction t with
  | leaf k name =>
    cases name with
    | none => simp [wfChain] at h
    | some n =>
      have hn : (n == "") = false := by simpa [wfChain] using h
      refine ⟨.base n false, n, rfl, ?_, rfl, fun _ => rfl⟩
      simp [AstType.renderString, hn]
  | wrap k name inner ih =>
    simp only [wfChain, Bool.and_eq_true] at h
    obtain ⟨hk, hwf⟩ := h
    obtain ⟨a, s, hres, hrend, himp, hcond⟩ := ih hwf
    by_cases hnn : (k == "NON_NULL") = true
    · have hinn : isNonNullWrapper inner = false := by
        rcases Bool.or_eq_true_iff.mp hk with h1 | h1
        · have h2 := (Bool.and_eq_true _ _ ▸ h1).2
          simp only [Bool.not_eq_true'] at h2
          exact h2
        · have : k = "LIST" := by simpa using h1
          have : k = "NON_NULL" := by simpa using hnn
          simp_all
      have hanf : a.nonNull = false := hcond hinn
      refine ⟨a.setNonNull, s ++ "!", ?_, ?_, ?_, ?_⟩
      · simp [introspectionTypeToAstType, hnn, hres]
      · exact renderString_setNonNull a s hanf hrend
      · simp [impliedRendering, hnn, himp]
      · intro habs
        simp [isNonNullWrapper, hnn] at habs
    · have hnn' : (k == "NON_NULL") = false := by simpa using hnn
      have hl : (k == "LIST") = true := by
        rcases Bool.or_eq_true_iff.mp hk with h1 | h1
        · exact absurd (Bool.and_eq_true _ _ ▸ h1).1 (by simp [hnn'])
        · exact h1
      refine ⟨.withElem "" false a, "[" ++ s ++ "]", ?_, ?_, ?_, fun _ => rfl⟩
      · simp [introspectionTypeToAstType, hnn', hl, hres]
      · simp [AstType.renderString, hrend, String.append_assoc]
      · simp [impliedRendering, hnn', hl, himp]

/-- Claim C2: resolving a well-formed wrapper chain succeeds and rendering
the resulting `ast.Type` reproduces exactly the bracket/exclamation
nesting the chain implies, in the same order. -/
theorem resolve_render_roundtrip (t : IntrospectedType) (h : wfChain t = true) :
    ∃ a s, introspectionTypeToAstType t = .ok a ∧ AstType.renderString a = some s ∧
      impliedRendering t = some s := by
  obtain ⟨a, s, h1, h2, h3, _⟩ := resolve_render_wf t h
  exact ⟨a, s, h1, h2, h3⟩

/-- Witness for C2 at the spec's two examples: "non-null list of non-null
String" renders as `[String!]!` and "list of non-null list of String"
renders as `[[String]!]`. -/
theorem resolve_render_roundtrip_witness :
    (wfChain (.wrap "NON_NULL" none (.wrap "LIST" none
        (.wrap "NON_NULL" none (.leaf "SCALAR" (some "String"))))) = true ∧
      impliedRendering (.wrap "NON_NULL" none (.wrap "LIST" none
        (.wrap "NON_NULL" none (.leaf "SCALAR" (some "String"))))) = some "[String!]!" ∧
      (∃ a s, introspectionTypeToAstType (.wrap "NON_NULL" none (.wrap "LIST" none
          (.wrap "NON_NULL" none (.leaf "SCALAR" (some "String"))))) = .ok a ∧
        AstType.renderString a = some s ∧
        impliedRendering (.wrap "NON_NULL" none (.wrap "LIST" none
          (.wrap "NON_NULL" none (.leaf "SCALAR" (some "String"))))) = some s)) ∧
    (wfChain (.wrap "LIST" none (.wrap "NON_NULL" none
        (.wrap "LIST" none (.leaf "SCALAR" (some "String"))))) = true ∧
      impliedRendering (.wrap "LIST" none (.wrap "NON_NULL" none
        (.wrap "LIST" none (.leaf "SCALAR" (some "String"))))) = some "[[String]!]" ∧
      (∃ a s, introspectionTypeToAstType (.wrap "LIST" none (.wrap "NON_NULL" none
          (.wrap "LIST" none (.leaf "SCALAR" (some "String"))))) = .ok a ∧
        AstType.renderString a = some s ∧
        impliedRendering (.wrap "LIST" none (.wrap "NON_NULL" none
          (.wrap "LIST" none (.leaf "SCALAR" (some "String"))))) = some s)) :=
  ⟨⟨rfl, rfl, resolve_render_roundtrip (.wrap "NON_NULL" none (.wrap "LIST" none
      (.wrap "NON_NULL" none (.leaf "SCALAR" (some "String"))))) rfl⟩,
   ⟨rfl, rfl, resolve_render_roundtrip (.wrap "LIST" none (.wrap "NON_NULL" none
      (.wrap "LIST" none (.leaf "SCALAR" (some "String"))))) rfl⟩⟩

/-- Claim C10: a node whose `OfType` pointer is absent and whose name is
present resolves to that plain named type whatever its kind is — the leaf
test precedes the kind test, so kinds `NON_NULL`, `LIST` or any
unrecognized kind succeed here instead of reporting "type kind unknown". -/
theorem leaf_resolves_regardless_of_kind (k n : String) :
    introspectionTypeToAstType (.leaf k (some n)) = .ok (.base n false) := rfl

/-- Claim C8 (refuting evaluation): a chain terminating in a node with no
inner reference and no name makes the resolver dereference the nil `Name`
pointer and panic — it does not return an error, so the resolver is not
total over decodable type references. -/
theorem nil_name_leaf_panics :
    introspectionTypeToAstType (.leaf "SCALAR" none) = GoResult.nilPanic ∧
      introspectionTypeToAstType
        (.wrap "NON_NULL" none (.leaf "SCALAR" none)) = GoResult.nilPanic :=
  ⟨rfl, rfl⟩

/-- src `introspectionInputField` (and the structurally identical
anonymous directive-argument struct): only the fields the printer reads
are kept; `DefaultValue` is never read. -/
structure InputField : Type where
  name : String
  description : String
  type : Option IntrospectedType

/-- src `introspectedTypeField`; `IsDeprecated` and `DeprecationReason`
are never read by the printer. -/
structure TypeField : Type where
  name : String
  description : String
  args : List InputField
  type : Option IntrospectedType

/-- gqlparser `ast.Definition` as the printer reads it: only `Name` is
ever accessed (for entries of `Interfaces`; `QueryType`/`MutationType`
are never read at all). -/
structure AstDefinitionRef : Type where
  name : String

/-- gqlparser `ast.EnumValueDefinition` as the printer reads it:
`Name` and `Description`. -/
structure EnumValue : Type where
  name : String
  description : String

/-- src `introspectionDirectiveDefinition`; locations are the
`ast.DirectiveLocation` strings. -/
structure DirectiveDefinition : Type where
  name : String
  description : String
  locations : List String
  args : List InputField

/-- src `introspectionTypeDefinition`.  `Kind` is the `ast.DefinitionKind`
string ("SCALAR", "OBJECT", "INTERFACE", "UNION", "ENUM", "INPUT_OBJECT").
The `json.RawMessage` fields `EnumValues` and `PossibleTypes` are
deferred-decode sub-documents, represented here by the outcome of the
`json.Unmarshal` call the printer performs on them (`Except.error` is
a decode failure carrying the error text). -/
structure TypeDefinition : Type where
  kind : String
  name : String
  description : String
  fields : List TypeField
  inputFields : List InputField
  interfaces : List AstDefinitionRef
  enumValues : Except String (List EnumValue)
  possibleTypes : Except String (List (Option IntrospectedType))

/-- src `introspectionSchema`. -/
structure IntrospectionSchema : Type where
  queryType : AstDefinitionRef
  mutationType : AstDefinitionRef
  types : List TypeDefinition
  directives : List DirectiveDefinition

/-- One element of the `errors` array of `introspectionResults`. -/
structure IntrospectionError : Type where
  message : String

/-- The `data` object of `introspectionResults`. -/
structure IntrospectionData : Type where
  schema : IntrospectionSchema

/-- src `introspectionResults`: the decoded introspection payload. -/
structure IntrospectionResults : Type where
  errors : List IntrospectionError
  data : IntrospectionData

/-- src `containsStr`. -/
def containsStr (needle : String) (hay : List String) : Bool :=
  match hay with
  | [] => false
  | s :: rest => if needle == s then true else containsStr needle rest

/-- src `excludeScalarTypes`. -/
def excludeScalarTypes : List String := ["ID", "Int", "String", "Float", "Boolean"]

/-- src `excludeDirectives`. -/
def excludeDirectives : List String := ["deprecated", "include", "skip"]

/-- Join strings with a separator — the printer's indexed loops that write
each item and then the separator while `i < len-1` (Go `strings.Join` for
the error list). -/
def joinSep (sep : String) : List String → String
  | [] => ""
  | [x] => x
  | x :: y :: rest => x ++ sep ++ joinSep sep (y :: rest)

/-- Result of one printing pass: the `strings.Builder` content so far,
plus whether the pass returned normally, returned an error (Go `error`,
builder content retained), or crashed on a nil dereference. -/
inductive PState : Type where
  | ok (sb : String)
  | err (sb : String) (msg : String)
  | panicked

/-- src `printDescription`: a non-empty description is written as a
triple-quoted block on its own line; an empty one writes nothing. -/
def printDescription (sb description : String) : String :=
  if description == "" then sb
  else sb ++ "\"\"\"" ++ description ++ "\"\"\"" ++ "\n"

/-- The guard of the two `continue` statements at the head of the
`printTypes` loop (src lines 134-139): meta-types (names with the "__"
introspection meta prefix) are always skipped; with `withoutBuiltins`,
builtin-named types are skipped only when their kind is also `SCALAR`. -/
def typeSkipped (withoutBuiltins : Bool) (typ : TypeDefinition) : Bool :=
  hasPrefixStr typ.name "__" ||
    (withoutBuiltins && containsStr typ.name excludeScalarTypes && typ.kind == "SCALAR")

/-- Directive-argument loop (src lines 107-114): description, then
`\targName: TypeExpr`; a resolver failure returns the wrapped error. -/
def printDirectiveArgs (sb : String) : List InputField → PState
  | [] => .ok sb
  | arg :: rest =>
    let sb1 := printDescription sb arg.description
    match resolveTypeRef arg.type with
    | .err e => .err sb1 ("convert introspection type to AST type: " ++ e.message ++ "\n")
    | .nilPanic => .panicked
    | .ok a =>
      match a.renderString with
      | none => .panicked
      | some ts => printDirectiveArgs (sb1 ++ "\t" ++ arg.name ++ ": " ++ ts ++ "\n") rest

/-- src `printDirectives`. -/
def printDirectives (sb : String) (withoutBuiltins : Bool) : List DirectiveDefinition → PState
  | [] => .ok sb
  | d :: rest =>
    if withoutBuiltins && containsStr d.name excludeDirectives then
      printDirectives sb withoutBuiltins rest
    else
      let sb1 := printDescription sb d.description ++ "directive @" ++ d.name
      let afterArgs : PState :=
        if d.args.length > 0 then
          match printDirectiveArgs (sb1 ++ "(\n") d.args with
          | .ok s => .ok (s ++ ")")
          | .err s e => .err s e
          | .panicked => .panicked
        else .ok sb1
      match afterArgs with
      | .ok s =>
        printDirectives (s ++ " on " ++ joinSep " | " d.locations ++ "\n" ++ "\n")
          withoutBuiltins rest
      | .err s e => .err s e
      | .panicked => .panicked

/-- Object-field argument loop (src lines 161-168): description, then
`\t\targName: TypeExpr`. -/
def printFieldArgsObj (sb : String) : List InputField → PState
  | [] => .ok sb
  | arg :: rest =>
    let sb1 := printDescription sb arg.description
    match resolveTypeRef arg.type with
    | .err e => .err sb1 ("convert introspection type to AST type: " ++ e.message ++ "\n")
    | .nilPanic => .panicked
    | .ok a =>
      match a.renderString with
      | none => .panicked
      | some ts => printFieldArgsObj (sb1 ++ "\t\t" ++ arg.name ++ ": " ++ ts ++ "\n") rest

/-- Interface-field argument loop (src lines 253-259): identical to the
object one except that argument descriptions are not printed. -/
def printFieldArgsIface (sb : String) : List InputField → PState
  | [] => .ok sb
  | arg :: rest =>
    match resolveTypeRef arg.type with
    | .err e => .err sb ("convert introspection type to AST type: " ++ e.message ++ "\n")
    | .nilPanic => .panicked
    | .ok a =>
      match a.renderString with
      | none => .panicked
      | some ts => printFieldArgsIface (sb ++ "\t\t" ++ arg.name ++ ": " ++ ts ++ "\n") rest

/-- Object field loop (src lines 156-176): each field's own description,
the field name, the optional argument block, then `: TypeExpr`. -/
def printObjectFields (sb : String) : List TypeField → PState
  | [] => .ok sb
  | field :: rest =>
    let sb1 := printDescription sb field.description ++ "\t" ++ field.name
    let afterArgs : PState :=
      if field.args.length > 0 then
        match printFieldArgsObj (sb1 ++ "(\n") field.args with
        | .ok s => .ok (s ++ "\t)")
        | .err s e => .err s e
        | .panicked => .panicked
      else .ok sb1
    match afterArgs with
    | .ok s2 =>
      match resolveTypeRef field.type with
      | .err e => .err s2 ("convert introspection type to AST type: " ++ e.message ++ "\n")
      | .nilPanic => .panicked
      | .ok a =>
        match a.renderString with
        | none => .panicked
        | some ts => printObjectFields (s2 ++ ": " ++ ts ++ "\n") rest
    | .err s e => .err s e
    | .panicked => .panicked

/-- Interface field loop (src lines 248-267).  Note: src line 249 passes
`typ.Description` — the enclosing type's description — to
`printDescription`, not the field's own. -/
def printInterfaceFields (typDescription : String) (sb : String) : List TypeField → PState
  | [] => .ok sb
  | field :: rest =>
    let sb1 := printDescription sb typDescription ++ "\t" ++ field.name
    let afterArgs : PState :=
      if field.args.length > 0 then
        match printFieldArgsIface (sb1 ++ "(\n") field.args with
        | .ok s => .ok (s ++ "\t)")
        | .err s e => .err s e
        | .panicked => .panicked
      else .ok sb1
    match afterArgs with
    | .ok s2 =>
      match resolveTypeRef field.type with
      | .err e => .err s2 ("convert introspection type to AST type: " ++ e.message ++ "\n")
      | .nilPanic => .panicked
      | .ok a =>
        match a.renderString with
        | none => .panicked
        | some ts => printInterfaceFields typDescription (s2 ++ ": " ++ ts ++ "\n") rest
    | .err s e => .err s e
    | .panicked => .panicked

/-- Input-field loop (src lines 213-220).  Note: src line 214 passes
`typ.Description` — the enclosing type's description — to
`printDescription`, not the field's own. -/
def printInputFields (typDescription : String) (sb : String) : List InputField → PState
  | [] => .ok sb
  | field :: rest =>
    let sb1 := printDescription sb typDescription
    match resolveTypeRef field.type with
    | .err e => .err sb1 ("convert introspection type to AST type: " ++ e.message ++ "\n")
    | .nilPanic => .panicked
    | .ok a =>
      match a.renderString with
      | none => .panicked
      | some ts => printInputFields typDescription (sb1 ++ "\t" ++ field.name ++ ": " ++ ts ++ "\n") rest

/-- Union member loop (src lines 185-194): each member's rendered type,
separated by " | " while `i < len(possible)-1`. -/
def printUnionMembers (sb : String) : List (Option IntrospectedType) → PState
  | [] => .ok sb
  | t :: rest =>
    match resolveTypeRef t with
    | .err e => .err sb ("convert introspection type to AST type: " ++ e.message ++ "\n")
    | .nilPanic => .panicked
    | .ok a =>
      match a.renderString with
      | none => .panicked
      | some s =>
        match rest with
        | [] => .ok (sb ++ s)
        | _ :: _ => printUnionMembers (sb ++ s ++ " | ") rest

/-- Enum value loop (src lines 202-205): each value's description and
name, one per line. -/
def printEnumValues (sb : String) : List EnumValue → String
  | [] => sb
  | v :: rest => printEnumValues (printDescription sb v.description ++ "\t" ++ v.name ++ "\n") rest

/-- src `printInterface`. -/
def printInterface (sb : String) (typ : TypeDefinition) : PState :=
  if !(typ.kind == "INTERFACE") then
    .err sb ("cannot print " ++ typ.kind ++ " as " ++ "INTERFACE")
  else
    match printInterfaceFields typ.description (sb ++ "interface " ++ typ.name ++ " \x7b\n") typ.fields with
    | .ok s => .ok (s ++ "\x7d")
    | .err s e => .err s e
    | .panicked => .panicked

/-- Body of the `switch typ.Kind` in `printTypes` (src lines 142-227),
run after the type's description has been written.  The `Interface` case
(src line 224) calls `printInterface` and discards its error return, so a
failed interface body leaves its partial text behind and the pass
continues. -/
def printTypeBody (sb : String) (typ : TypeDefinition) : PState :=
  if typ.kind == "OBJECT" then
    let sb1 := sb ++ "type " ++ typ.name ++ " "
    let sb2 :=
      if typ.interfaces.length > 0 then
        sb1 ++ "implements " ++ joinSep " & " (typ.interfaces.map AstDefinitionRef.name)
      else sb1
    match printObjectFields (sb2 ++ "\x7b\n") typ.fields with
    | .ok s => .ok (s ++ "\x7d")
    | .err s e => .err s e
    | .panicked => .panicked
  else if typ.kind == "UNION" then
    let sb1 := sb ++ "union " ++ typ.name ++ " ="
    match typ.possibleTypes with
    | .error e => .err sb1 e
    | .ok possible => printUnionMembers sb1 possible
  else if typ.kind == "ENUM" then
    let sb1 := sb ++ "enum " ++ typ.name ++ " \x7b\n"
    match typ.enumValues with
    | .error e => .err sb1 ("cannot unmarshal enum values: " ++ e ++ "\n")
    | .ok values => .ok (printEnumValues sb1 values ++ "\x7d")
  else if typ.kind == "SCALAR" then .ok (sb ++ "scalar " ++ typ.name)
  else if typ.kind == "INPUT_OBJECT" then
    match printInputFields typ.description (sb ++ "input " ++ typ.name ++ " \x7b\n") typ.inputFields with
    | .ok s => .ok (s ++ "\x7d")
    | .err s e => .err s e
    | .panicked => .panicked
  else if typ.kind == "INTERFACE" then
    match printInterface sb typ with
    | .ok s => .ok s
    | .err s _ => .ok s
    | .panicked => .panicked
  else .err sb ("not handling kind: " ++ typ.kind)

/-- src `printTypes`: skip guard, description, kind switch, then two
newlines after each printed type; an error return aborts the remaining
types (builder content retained). -/
def printTypes (sb : String) (withoutBuiltins : Bool) : List TypeDefinition → PState
  | [] => .ok sb
  | typ :: rest =>
    if typeSkipped withoutBuiltins typ then printTypes sb withoutBuiltins rest
    else
      match printTypeBody (printDescription sb typ.description) typ with
      | .ok s => printTypes (s ++ "\n" ++ "\n") withoutBuiltins rest
      | .err s e => .err s e
      | .panicked => .panicked

/-- src `printSchema` (lines 89-96): runs `printDirectives` then
`printTypes` on one shared builder and returns the builder's content.
Both calls' error returns are discarded — only a panic (`none`) prevents
a string from being returned. -/
def printSchema (schema : IntrospectionSchema) (withoutBuiltins : Bool) : Option String :=
  match printDirectives "" withoutBuiltins schema.directives with
  | .panicked => none
  | .ok sb | .err sb _ =>
    match printTypes sb withoutBuiltins schema.types with
    | .panicked => none
    | .ok sb2 | .err sb2 _ => some sb2

/-- Tail of src `BuildClientSchemaWithOptions` (lines 78-87), after the
HTTP exchange and JSON decode (out of scope per spec §1) have produced a
decoded `introspectionResults`: a non-empty `errors` array fails the call
with the joined messages; otherwise the call returns
`(printSchema(...), nil)`.  `none` models a panic; `some (.error e)` the
`("", e)` return; `some (.ok s)` the `(s, nil)` return. -/
def buildClientSchemaFromResults (r : IntrospectionResults) (withoutBuiltins : Bool) :
    Option (Except String String) :=
  if r.errors.length != 0 then
    some (.error ("encountered the following GraphQL errors: " ++
      joinSep "," (r.errors.map IntrospectionError.message)))
  else
    (printSchema r.data.schema withoutBuiltins).map Except.ok

/-- Type reference used in the C1 evaluation: an unknown wrapper kind
over an `Int` leaf, so its resolution fails. -/
def brokenTypeRef : IntrospectedType := .wrap "BOGUS" none (.leaf "SCALAR" (some "Int"))

/-- An object type whose single field has the failing type reference. -/
def brokenFieldType : TypeDefinition :=
  ⟨"OBJECT", "Query", "", [⟨"broken", "", [], some brokenTypeRef⟩], [], [], .ok [], .ok []⟩

/-- A decoded payload with no GraphQL errors and the broken object type. -/
def brokenPayload : IntrospectionResults :=
  ⟨[], ⟨⟨⟨"Query"⟩, ⟨""⟩, [brokenFieldType], []⟩⟩⟩

/-- Claim C1 (refuting evaluation): the field's type reference fails to
resolve, yet the top-level conversion returns the partial document
"type Query \x7b\n\tbroken" with a nil error — `printSchema` discards the
error values `printDirectives` and `printTypes` return, so there is a
partial-success mode. -/
theorem printSchema_drops_resolver_error :
    introspectionTypeToAstType brokenTypeRef = .err (.unknownKind "BOGUS") ∧
      buildClientSchemaFromResults brokenPayload false =
        some (.ok "type Query \x7b\n\tbroken") :=
  ⟨rfl, rfl⟩

/-- Claim C3: a decoded payload whose `errors` array is non-empty fails
the conversion — no SDL is returned, whatever `data.__schema` holds — and
the error message carries every supplied message joined by commas. -/
theorem graphql_errors_short_circuit (r : IntrospectionResults) (withoutBuiltins : Bool)
    (h : r.errors ≠ []) :
    buildClientSchemaFromResults r withoutBuiltins =
      some (.error ("encountered the following GraphQL errors: " ++
        joinSep "," (r.errors.map IntrospectionError.message))) := by
  have hlen : (r.errors.length != 0) = true := by
    cases he : r.errors with
    | nil => exact absurd he h
    | cons a as => simp
  simp [buildClientSchemaFromResults, hlen]

/-- A scalar type definition named `String` (also the spec's "scalar
String" test subject). -/
def stringScalarType : TypeDefinition := ⟨"SCALAR", "String", "", [], [], [], .ok [], .ok []⟩

/-- A payload carrying two GraphQL errors together with a populated
`data.__schema`. -/
def erroredPayload : IntrospectionResults :=
  ⟨[⟨"boom"⟩, ⟨"bang"⟩], ⟨⟨⟨"Query"⟩, ⟨""⟩, [stringScalarType], []⟩⟩⟩

/-- Witness for C3: both supplied messages appear, joined by a comma,
even though the payload's schema is populated. -/
theorem graphql_errors_short_circuit_witness :
    erroredPayload.errors ≠ [] ∧
      buildClientSchemaFromResults erroredPayload true =
        some (.error ("encountered the following GraphQL errors: " ++
          joinSep "," (erroredPayload.errors.map IntrospectionError.message))) ∧
      joinSep "," (erroredPayload.errors.map IntrospectionError.message) = "boom,bang" :=
  ⟨by simp [erroredPayload],
   graphql_errors_short_circuit erroredPayload true (by simp [erroredPayload]), rfl⟩

/-- An interface type with its own description and one described field. -/
def describedInterfaceType : TypeDefinition :=
  ⟨"INTERFACE", "Node", "TYPEDESC",
    [⟨"id", "FIELDDESC", [], some (.leaf "SCALAR" (some "ID"))⟩], [], [], .ok [], .ok []⟩

/-- An input-object type with its own description and one described
input field. -/
def describedInputType : TypeDefinition :=
  ⟨"INPUT_OBJECT", "Filter", "INDESC", [],
    [⟨"limit", "LIMITDESC", some (.leaf "SCALAR" (some "Int"))⟩], [], .ok [], .ok []⟩

/-- Claim C4 (refuting evaluation): for interface fields and input fields
the printer emits the enclosing type's description before each field —
the field's own description never appears in the output. -/
theorem field_description_uses_type_description :
    printTypes "" false [describedInterfaceType] =
      .ok ("\"\"\"TYPEDESC\"\"\"\ninterface Node \x7b\n\"\"\"TYPEDESC\"\"\"\n\tid: ID\n\x7d\n\n") ∧
      containsSubstring
        "\"\"\"TYPEDESC\"\"\"\ninterface Node \x7b\n\"\"\"TYPEDESC\"\"\"\n\tid: ID\n\x7d\n\n"
        "FIELDDESC" = false ∧
      printTypes "" false [describedInputType] =
        .ok ("\"\"\"INDESC\"\"\"\ninput Filter \x7b\n\"\"\"INDESC\"\"\"\n\tlimit: Int\n\x7d\n\n") ∧
      containsSubstring
        "\"\"\"INDESC\"\"\"\ninput Filter \x7b\n\"\"\"INDESC\"\"\"\n\tlimit: Int\n\x7d\n\n"
        "LIMITDESC" = false :=
  ⟨rfl, rfl, rfl, rfl⟩

/-- A non-scalar type bearing the introspection meta prefix: skipped by
the printer although its name is not a builtin scalar name. -/
def metaObjectType : TypeDefinition := ⟨"OBJECT", "__Type", "meta", [], [], [], .ok [], .ok []⟩

/-- Claim C5 (counterexample): with `withoutBuiltins` set, the type named
`__Type` of kind `OBJECT` is skipped (it contributes nothing to the
output) although its name is not among the builtin scalar names and its
kind is not `SCALAR` — so "skipped iff builtin name and scalar kind" does
not hold as stated. -/
theorem builtin_skip_iff_counterexample :
    typeSkipped true metaObjectType = true ∧
      printTypes "" true [metaObjectType] = .ok "" ∧
      containsStr metaObjectType.name excludeScalarTypes = false ∧
      (metaObjectType.kind == "SCALAR") = false :=
  ⟨rfl, rfl, rfl, rfl⟩

/-- Claim C5 as amended: for a type whose name does not begin with "__",
the `withoutBuiltins` skip test holds iff the name is a builtin scalar
name AND the kind is `SCALAR`; with the flag unset such a type is never
skipped; and a skipped type contributes nothing to the printed output. -/
theorem builtin_skip_amended (t : TypeDefinition) (h : hasPrefixStr t.name "__" = false) :
    typeSkipped true t = (containsStr t.name excludeScalarTypes && (t.kind == "SCALAR")) ∧
      typeSkipped false t = false ∧
      (∀ wb sb rest, typeSkipped wb t = true →
        printTypes sb wb (t :: rest) = printTypes sb wb rest) := by
  refine ⟨?_, ?_, ?_⟩
  · simp [typeSkipped, h]
  · simp [typeSkipped, h]
  · intro wb sb rest hs
    simp [printTypes, hs]

/-- Witness for C5 (amended): the builtin scalar `String` is not
meta-prefixed, is skipped exactly when the flag is set, prints as
`scalar String` when the flag is unset, and is absent when it is set. -/
theorem builtin_skip_amended_witness :
    hasPrefixStr stringScalarType.name "__" = false ∧
      (typeSkipped true stringScalarType =
          (containsStr stringScalarType.name excludeScalarTypes &&
            (stringScalarType.kind == "SCALAR")) ∧
        typeSkipped false stringScalarType = false ∧
        (∀ wb sb rest, typeSkipped wb stringScalarType = true →
          printTypes sb wb (stringScalarType :: rest) = printTypes sb wb rest)) ∧
      printTypes "" false [stringScalarType] = .ok "scalar String\n\n" ∧
      printTypes "" true [stringScalarType] = .ok "" :=
  ⟨rfl, builtin_skip_amended stringScalarType rfl, rfl, rfl⟩

/-- Claim C6: a type whose name begins with "__" is skipped by the
printer for either value of `withoutBuiltins` — it contributes nothing
to the output. -/
theorem meta_type_skipped (t : TypeDefinition) (wb : Bool) (sb : String)
    (rest : List TypeDefinition) (h : hasPrefixStr t.name "__" = true) :
    printTypes sb wb (t :: rest) = printTypes sb wb rest := by
  have hs : typeSkipped wb t = true := by simp [typeSkipped, h]
  simp [printTypes, hs]

/-- A populated `__Type` meta-definition for the C6 witness. -/
def metaTypeDefn : TypeDefinition :=
  ⟨"OBJECT", "__Type", "introspection", [⟨"kind", "", [], some (.leaf "SCALAR" (some "String"))⟩],
    [], [], .ok [], .ok []⟩

/-- Witness for C6 at the spec's example `__Type`, under both flag
values. -/
theorem meta_type_skipped_witness :
    hasPrefixStr metaTypeDefn.name "__" = true ∧
      printTypes "" true [metaTypeDefn] = printTypes "" true [] ∧
      printTypes "" false [metaTypeDefn] = printTypes "" false [] :=
  ⟨rfl, meta_type_skipped metaTypeDefn true "" [] rfl,
    meta_type_skipped metaTypeDefn false "" [] rfl⟩

/-- Claim C9: the conversion output is a deterministic function of the
decoded schema's type and directive lists and the flag alone — two
schemas agreeing on those lists (whatever their `QueryType` and
`MutationType` hold) print identically, and repeated invocations on the
same input trivially coincide since no other state enters. -/
theorem printSchema_deterministic (s1 s2 : IntrospectionSchema) (wb : Bool)
    (ht : s1.types = s2.types) (hd : s1.directives = s2.directives) :
    printSchema s1 wb = printSchema s2 wb := by
  obtain ⟨q1, m1, t1, d1⟩ := s1
  obtain ⟨q2, m2, t2, d2⟩ := s2
  have ht' : t1 = t2 := ht
  have hd' : d1 = d2 := hd
  subst ht'
  subst hd'
  rfl

/-- Witness for C9: two schemas differing only in their `QueryType` and
`MutationType` print the same output, here `scalar String`. -/
theorem printSchema_deterministic_witness :
    printSchema ⟨⟨"Query"⟩, ⟨"Mutation"⟩, [stringScalarType], []⟩ false =
        printSchema ⟨⟨"OtherQuery"⟩, ⟨""⟩, [stringScalarType], []⟩ false ∧
      printSchema ⟨⟨"Query"⟩, ⟨"Mutation"⟩, [stringScalarType], []⟩ false =
        some "scalar String\n\n" :=
  ⟨printSchema_deterministic ⟨⟨"Query"⟩, ⟨"Mutation"⟩, [stringScalarType], []⟩
      ⟨⟨"OtherQuery"⟩, ⟨""⟩, [stringScalarType], []⟩ false rfl rfl, rfl⟩
